import Mathlib

/-!
Verification of the `gnd-elev` elevation service (src/src/ElevationService.ts
and src/src/main.ts) against its natural-language specification.

The TypeScript code is shallowly embedded: JS object maps become association
lists over `String`, `Buffer` becomes a list of byte values, JS numbers in
the interpolation pipeline become rationals (the algorithm is algebraic), and
the JS fallible operations (`Buffer.readInt16BE`, `zlib.gunzipSync`) become
`Except`-valued functions.  The external zlib coder is modelled as a framing
that prepends the two gzip magic bytes (0x1f = 31, 0x8b = 139); `gunzipSync`
strips them and fails on any buffer that does not carry them, matching zlib's
"incorrect header check" behaviour on un-gzipped input.
-/

namespace GndElev

/-- `const SIZE = 3601` (ElevationService.ts line 4). -/
def SIZE : Nat := 3601

/-- A JS `Buffer`: a flat sequence of byte values. -/
abbrev Bytes := List Nat

/-- Model of gzip compression by the external zlib collaborator: the
compressed blob carries the gzip magic header in front of the payload. -/
def gzipBytes (bs : Bytes) : Bytes := 31 :: 139 :: bs

/-- Errors that the embedded JS operations can throw. -/
inductive JsErr where
  | rangeErr : JsErr   -- Buffer.readInt16BE out of range
  | gzipErr : JsErr    -- zlib gunzip: incorrect header check
deriving DecidableEq, Repr

/-- Model of `zlib.gunzipSync`: strips the gzip framing, throws on input
that is not gzip-framed. -/
def gunzipSync (bs : Bytes) : Except JsErr Bytes :=
  match bs with
  | 31 :: 139 :: rest => .ok rest
  | _ => .error .gzipErr

/-- Association-list lookup, modelling JS object property read `m[k]`. -/
def lookupKey (k : String) : List (String × α) → Option α
  | [] => none
  | (k', v) :: rest => if k' = k then some v else lookupKey k rest

/-- Remove every binding of a key, modelling JS `delete m[k]`. -/
def removeKey (k : String) : List (String × α) → List (String × α)
  | [] => []
  | (k', v) :: rest =>
      if k' = k then removeKey k rest else (k', v) :: removeKey k rest

/-- Overwrite a key's binding, modelling JS property write `m[k] = v`. -/
def upd (k : String) (v : α) (m : List (String × α)) : List (String × α) :=
  (k, v) :: removeKey k m

/-- Left-pad a string with a fill character, modelling JS
`String.prototype.padStart`. -/
def padStart (s : String) (n : Nat) (c : Char) : String :=
  String.mk (List.replicate (n - s.length) c) ++ s

/-- `tileMapPath` (ElevationService.ts lines 210-215): canonical tile key
from the integer latitude/longitude bands. -/
def tileMapPath (lat lon : Int) : String :=
  let latFileName := (if lat < 0 then "S" else "N") ++ padStart (Nat.repr lat.natAbs) 2 '0'
  let lngFileName := (if lon < 0 then "W" else "E") ++ padStart (Nat.repr lon.natAbs) 3 '0'
  let fileName := latFileName ++ lngFileName ++ ".hgt.gz"
  latFileName ++ "/" ++ fileName

/-- `Buffer.readInt16BE(offset)`: big-endian signed 16-bit read with Node's
bounds check; out-of-range offsets throw `ERR_OUT_OF_RANGE`. -/
def readInt16BE (buffer : Bytes) (offset : Int) : Except JsErr Int :=
  if 0 ≤ offset ∧ offset.toNat + 2 ≤ buffer.length then
    let hi := buffer.getD offset.toNat 0
    let lo := buffer.getD (offset.toNat + 1) 0
    let v := (hi % 256) * 256 + lo % 256
    .ok (if v < 32768 then (v : Int) else (v : Int) - 65536)
  else .error .rangeErr

/-- `rowCol` (ElevationService.ts lines 339-343): south-up grid access. -/
def rowCol (buffer : Bytes) (row col : Int) : Except JsErr Int :=
  let size : Int := (SIZE : Int)
  let offset := ((size - row - 1) * size + col) * 2
  readInt16BE buffer offset

/-- `avg` (ElevationService.ts lines 348-350): weighted average. -/
def avg (v1 v2 f : ℚ) : ℚ := v1 + (v2 - v1) * f

/-- `calculateElevation` (ElevationService.ts lines 312-334): bilinear
interpolation over the tile grid; a grid read that throws propagates. -/
def calculateElevation (buffer : Bytes) (lat lon : ℚ) : Except JsErr ℚ := do
  let size : ℚ := (SIZE : ℚ) - 1
  let row : ℚ := (lat - (Rat.floor lat : ℚ)) * size
  let col : ℚ := (lon - (Rat.floor lon : ℚ)) * size
  let rowLow : Int := Rat.floor row
  let rowHi : Int := rowLow + 1
  let rowFrac : ℚ := row - (rowLow : ℚ)
  let colLow : Int := Rat.floor col
  let colHi : Int := colLow + 1
  let colFrac : ℚ := col - (colLow : ℚ)
  let v00 ← rowCol buffer rowLow colLow
  let v10 ← rowCol buffer rowLow colHi
  let v11 ← rowCol buffer rowHi colHi
  let v01 ← rowCol buffer rowHi colLow
  let v1 := avg (v00 : ℚ) (v10 : ℚ) colFrac
  let v2 := avg (v01 : ℚ) (v11 : ℚ) colFrac
  return avg v1 v2 rowFrac

/-- A JS number as observed at the public elevation interface: either a
finite value or `Number.NEGATIVE_INFINITY`. -/
inductive JSNum where
  | finite (q : ℚ) : JSNum
  | negInf : JSNum
deriving DecidableEq, Repr

/-- An input point (`LocationData` in ElevationService.ts line 6). -/
structure LocationData where
  lat : ℚ
  lon : ℚ

/-- The mutable fields of `ElevationService` (lines 25-30): the memory tier,
the in-flight registry, the pending TTL deadlines (milliseconds, absolute),
and the TTL in seconds fixed at construction. -/
structure SState where
  tileMap : List (String × Bytes)
  downloading : List String
  timeouts : List (String × Nat)
  ttl : Nat
deriving Repr

/-- The external world: whether a durable (S3) tier is configured, its
contents, and the origin archive's response per key (`none` = fetch failure
or non-2xx status). -/
structure World where
  s3Configured : Bool
  s3Store : List (String × Bytes)
  origin : String → Option Bytes

/-- The constructor's TTL initialisation (line 33): `options.ttl || 3600`,
so an absent — or zero, which is falsy — TTL defaults to 3600 seconds. -/
def mkService (ttlOpt : Option Nat) : SState :=
  { tileMap := [], downloading := [], timeouts := [],
    ttl := match ttlOpt with
           | none => 3600
           | some 0 => 3600
           | some t => t }

/-- `setTileTimeout` (lines 220-232): clear any pending timer for the key
and register a fresh deadline `now + ttl * 1000` milliseconds. -/
def setTileTimeout (now : Nat) (path : String) (s : SState) : SState :=
  { s with timeouts := upd path (now + s.ttl * 1000) s.timeouts }

/-- `checkTileInS3` (lines 237-251): existence check; any error is caught
and reported as absence. -/
def checkTileInS3 (w : World) (path : String) : Bool :=
  w.s3Configured && (lookupKey path w.s3Store).isSome

/-- `getTileFromS3` (lines 256-279): fetch the stored blob; errors are
caught and reported as `null`. -/
def getTileFromS3 (w : World) (path : String) : Option Bytes :=
  if w.s3Configured then lookupKey path w.s3Store else none

/-- `uploadTileToS3` (lines 284-300): best-effort put of the given bytes. -/
def uploadTileToS3 (w : World) (path : String) (buffer : Bytes) : World :=
  if w.s3Configured then { w with s3Store := upd path buffer w.s3Store } else w

/-- `addToTileMap` (lines 157-205).  Mirrors the source's control flow:
a key already in flight returns immediately; the S3 branch stores the blob
it fetched **without decompressing it** (line 168); the origin branch
deletes the in-flight flag before the null check (line 191), gunzips (which
may throw, line 196), stores the decoded buffer, and writes the original
compressed response through to S3. -/
def addToTileMap (w : World) (s : SState) (now : Nat) (path : String) :
    World × SState × Except JsErr Unit :=
  if s.downloading.contains path then (w, s, .ok ())
  else
    let s1 : SState := { s with downloading := path :: s.downloading }
    let s3Hit : Option Bytes :=
      if w.s3Configured then
        if checkTileInS3 w path then getTileFromS3 w path else none
      else none
    match s3Hit with
    | some s3Buffer =>
        let s2 := { s1 with downloading := s1.downloading.filter (· ≠ path) }
        let s3st := { s2 with tileMap := upd path s3Buffer s2.tileMap }
        (w, setTileTimeout now path s3st, .ok ())
    | none =>
        match w.origin path with
        | none => (w, { s1 with downloading := s1.downloading.filter (· ≠ path) }, .ok ())
        | some respData =>
            let s2 := { s1 with downloading := s1.downloading.filter (· ≠ path) }
            match gunzipSync respData with
            | .error e => (w, s2, .error e)
            | .ok buffer =>
                let s3st := setTileTimeout now path
                  { s2 with tileMap := upd path buffer s2.tileMap }
                (uploadTileToS3 w path respData, s3st, .ok ())

/-- `fetchTileBufferAsync` (lines 125-152).  A memory hit refreshes the TTL;
otherwise the S3 branch (lines 136-147) fetches and **gunzips** the blob
before storing it; otherwise the call falls through to `addToTileMap` and
re-reads the memory tier. -/
def fetchTileBufferAsync (w : World) (s : SState) (now : Nat) (lat lon : Int) :
    World × SState × Except JsErr (Option Bytes) :=
  let path := tileMapPath lat lon
  match lookupKey path s.tileMap with
  | some buffer => (w, setTileTimeout now path s, .ok (some buffer))
  | none =>
      let s3Hit : Option Bytes :=
        if w.s3Configured then
          if checkTileInS3 w path then getTileFromS3 w path else none
        else none
      match s3Hit with
      | some s3Buffer =>
          match gunzipSync s3Buffer with
          | .error e => (w, s, .error e)
          | .ok buffer =>
              let s1 := setTileTimeout now path s
              (w, { s1 with tileMap := upd path buffer s1.tileMap }, .ok (some buffer))
      | none =>
          match addToTileMap w s now path with
          | (w', s', .error e) => (w', s', .error e)
          | (w', s', .ok ()) => (w', s', .ok (lookupKey path s'.tileMap))

/-- The synchronous prefix of an un-awaited `addToTileMap` call (lines
158-159): only the in-flight check and flag assignment run before the first
`await` suspends the rest past the current synchronous execution. -/
def addToTileMapSyncPrefix (s : SState) (path : String) : SState :=
  if s.downloading.contains path then s
  else { s with downloading := path :: s.downloading }

/-- `fetchTileBufferSync` (lines 108-120): memory hit refreshes the TTL;
a miss fires `addToTileMap` without awaiting it and returns `null`. -/
def fetchTileBufferSync (s : SState) (now : Nat) (lat lon : Int) :
    SState × Option Bytes :=
  let path := tileMapPath lat lon
  match lookupKey path s.tileMap with
  | some buffer => (setTileTimeout now path s, some buffer)
  | none => (addToTileMapSyncPrefix s path, none)

/-- `getElevationAsync` (lines 90-94): a missing buffer yields
`Number.NEGATIVE_INFINITY`, otherwise the interpolated value. -/
def getElevationAsync (w : World) (s : SState) (now : Nat) (lat lon : ℚ) :
    World × SState × Except JsErr JSNum :=
  match fetchTileBufferAsync w s now (Rat.floor lat) (Rat.floor lon) with
  | (w', s', .error e) => (w', s', .error e)
  | (w', s', .ok none) => (w', s', .ok .negInf)
  | (w', s', .ok (some buffer)) =>
      (w', s', (calculateElevation buffer lat lon).map JSNum.finite)

/-- `getElevationSync` (lines 99-103). -/
def getElevationSync (s : SState) (now : Nat) (lat lon : ℚ) :
    SState × Except JsErr JSNum :=
  match fetchTileBufferSync s now (Rat.floor lat) (Rat.floor lon) with
  | (s', none) => (s', .ok .negInf)
  | (s', some buffer) => (s', (calculateElevation buffer lat lon).map JSNum.finite)

/-- `fetchElevationsAsync` (lines 52-66): per-point try/catch — an exception
for one point is converted to the sentinel and the loop continues with the
state the failing point left behind. -/
def fetchElevationsAsync (w : World) (s : SState) (now : Nat) :
    List LocationData → World × SState × List JSNum
  | [] => (w, s, [])
  | p :: rest =>
      match getElevationAsync w s now p.lat p.lon with
      | (w', s', .ok v) =>
          let r := fetchElevationsAsync w' s' now rest
          (r.1, r.2.1, v :: r.2.2)
      | (w', s', .error _) =>
          let r := fetchElevationsAsync w' s' now rest
          (r.1, r.2.1, JSNum.negInf :: r.2.2)

/-- `fetchElevationsSync` (lines 71-85). -/
def fetchElevationsSync (s : SState) (now : Nat) :
    List LocationData → SState × List JSNum
  | [] => (s, [])
  | p :: rest =>
      match getElevationSync s now p.lat p.lon with
      | (s', .ok v) =>
          let r := fetchElevationsSync s' now rest
          (r.1, v :: r.2)
      | (s', .error _) =>
          let r := fetchElevationsSync s' now rest
          (r.1, JSNum.negInf :: r.2)

/-- `addToTileMap` of src/src/main.ts (lines 87-105), with no `storage`
option configured.  Its in-flight registry maps keys to booleans; note the
failure branch (`if (!resp) return;`, line 98) runs **before** the line
that resets `downloading[path]` (line 99). -/
def mainAddToTileMap (w : World) (down : List (String × Bool))
    (tileMap : List (String × Bytes)) (path : String) :
    List (String × Bool) × List (String × Bytes) × Except JsErr Unit :=
  if (lookupKey path down).getD false then (down, tileMap, .ok ())
  else
    let d1 := upd path true down
    match w.origin path with
    | none => (d1, tileMap, .ok ())
    | some respData =>
        let d2 := upd path false d1
        match gunzipSync respData with
        | .error e => (d2, tileMap, .error e)
        | .ok buffer => (d2, upd path buffer tileMap, .ok ())

/-- Observable cache events with their wall-clock time (milliseconds):
a successful memory-tier read hit, a store of a resolved tile, or the firing
of a pending TTL timer. -/
inductive CEvent where
  | getHit (t : Nat) (path : String) : CEvent
  | put (t : Nat) (path : String) (b : Bytes) : CEvent
  | fire (t : Nat) (path : String) : CEvent

/-- The time an event occurs at. -/
def CEvent.time : CEvent → Nat
  | .getHit t _ => t
  | .put t _ _ => t
  | .fire t _ => t

/-- One step of the cache's timed behaviour.  A read hit requires residency
and resets the key's deadline (lines 112-115 / 129-132); a put stores the
tile and resets the deadline (every store site calls `setTileTimeout`);
a timer can fire only while it is the key's currently registered timer —
`setTileTimeout` clears superseded timers — and not before its deadline;
firing deletes the entry and its timer record (lines 227-231). -/
def cstep (s : SState) : CEvent → Option SState
  | .getHit t p =>
      match lookupKey p s.tileMap with
      | some _ => some (setTileTimeout t p s)
      | none => none
  | .put t p b => some (setTileTimeout t p { s with tileMap := upd p b s.tileMap })
  | .fire t p =>
      match lookupKey p s.timeouts with
      | some d =>
          if d ≤ t then
            some { s with tileMap := removeKey p s.tileMap,
                          timeouts := removeKey p s.timeouts }
          else none
      | none => none

/-- Run a sequence of cache events; `none` if any step is impossible. -/
def runTrace (s : SState) : List CEvent → Option SState
  | [] => some s
  | e :: es =>
      match cstep s e with
      | some s' => runTrace s' es
      | none => none

/-- A trace is "safe for `p`" when every event happens strictly before the
deadline `p` carries at that moment — i.e. `p` keeps being touched at
intervals shorter than the TTL. -/
def safeTrace (p : String) : SState → List CEvent → Bool
  | _, [] => true
  | s, e :: es =>
      (match lookupKey p s.timeouts with
       | some d => decide (e.time < d)
       | none => false) &&
      (match cstep s e with
       | some s' => safeTrace p s' es
       | none => true)

/-- The value the batch loop appends for one point: the elevation on
success, the sentinel when the point's processing throws (lines 56-62). -/
def pointOutcome (w : World) (s : SState) (now : Nat) (p : LocationData) : JSNum :=
  match getElevationAsync w s now p.lat p.lon with
  | (_, _, .ok v) => v
  | (_, _, .error _) => JSNum.negInf

/-- The service/world state after the batch loop has processed a prefix of
the input (both the success and the catch branch continue from the state
the point's processing left behind). -/
def batchStateAt (now : Nat) : World → SState → List LocationData → World × SState
  | w, s, [] => (w, s)
  | w, s, p :: rest =>
      match getElevationAsync w s now p.lat p.lon with
      | (w', s', _) => batchStateAt now w' s' rest

/-! Spec-side definitions, written from the specification's words, to be
compared with the embedded source. -/

/-- Modelled from the spec (§4.1): absolute value zero-padded to 2 digits. -/
def specPad2 (n : Nat) : String :=
  if n < 10 then "0" ++ Nat.repr n else Nat.repr n

/-- Modelled from the spec (§4.1): absolute value zero-padded to 3 digits. -/
def specPad3 (n : Nat) : String :=
  if n < 10 then "00" ++ Nat.repr n
  else if n < 100 then "0" ++ Nat.repr n
  else Nat.repr n

/-- Spec §4.1: hemisphere prefix `N`/`S` (`S` when the band is negative),
then the 2-digit zero-padded absolute latitude band. -/
def specLatDir (b : Int) : String :=
  (if b < 0 then "S" else "N") ++ specPad2 b.natAbs

/-- Spec §4.1: `E`/`W` prefix (`W` when negative), 3-digit padded. -/
def specLonDir (b : Int) : String :=
  (if b < 0 then "W" else "E") ++ specPad3 b.natAbs

/-- Spec §4.1: full key `"<latDir>/<latDir><lonDir>.hgt.gz"`. -/
def specEncode (blat blon : Int) : String :=
  specLatDir blat ++ "/" ++ specLatDir blat ++ specLonDir blon ++ ".hgt.gz"

/-- Spec §4.3 step 5: `lerp(a,b,f) = a + (b-a)*f`. -/
def lerp (a b f : ℚ) : ℚ := a + (b - a) * f

/-- Spec §4.2: `sample(row, col)` reads the buffer at
`offset = ((SIZE - row - 1) * SIZE + col) * 2` (south-up encoding). -/
def sample (tile : Bytes) (row col : Int) : Except JsErr Int :=
  readInt16BE tile ((((SIZE : Int) - row - 1) * (SIZE : Int) + col) * 2)

/-- Spec §4.3: the reference bilinear interpolation — fractional offsets
scaled by `unit = SIZE - 1`, the four corner samples, a column blend for
each row, then a row blend. -/
def specBilinear (tile : Bytes) (lat lon : ℚ) : Except JsErr ℚ := do
  let unit : ℚ := (SIZE : ℚ) - 1
  let row : ℚ := (lat - (Rat.floor lat : ℚ)) * unit
  let col : ℚ := (lon - (Rat.floor lon : ℚ)) * unit
  let rowLow : Int := Rat.floor row
  let colLow : Int := Rat.floor col
  let c00 ← sample tile rowLow colLow
  let c01 ← sample tile rowLow (colLow + 1)
  let c11 ← sample tile (rowLow + 1) (colLow + 1)
  let c10 ← sample tile (rowLow + 1) colLow
  let top := lerp (c00 : ℚ) (c01 : ℚ) (col - (colLow : ℚ))
  let bottom := lerp (c10 : ℚ) (c11 : ℚ) (col - (colLow : ℚ))
  return lerp top bottom (row - (rowLow : ℚ))

/-! Concrete scenarios used by the counterexample/bug theorems. -/

/-- A stand-in decoded payload for the single-flight scenario. -/
def c2Tile : Bytes := [0, 1]

/-- World for the single-flight scenario: no durable tier, origin serves
the (compressed) tile for every key. -/
def c2World : World :=
  { s3Configured := false, s3Store := [], origin := fun _ => some (gzipBytes c2Tile) }

/-- A full-size decoded tile payload: `SIZE*SIZE` 16-bit samples. -/
def c3Tile : Bytes := List.replicate (SIZE * SIZE * 2) 0

/-- World for the memory-tier invariant scenario: the durable tier holds
the compressed blob for the key of band (42, 0); the origin is down. -/
def c3World : World :=
  { s3Configured := true,
    s3Store := [(tileMapPath 42 0, gzipBytes c3Tile)],
    origin := fun _ => none }

/-- A small decoded payload for the durable round-trip scenario. -/
def c4Data : Bytes := [0, 5]

/-- World for the durable round-trip scenario: empty durable tier, origin
serves the compressed blob. -/
def c4World : World :=
  { s3Configured := true, s3Store := [], origin := fun _ => some (gzipBytes c4Data) }

/-- The first resolution of band (42, 0): origin fetch, decode, and
write-through of the origin blob to the durable tier. -/
def c4Resolved : World × SState × Except JsErr Unit :=
  addToTileMap c4World (mkService none) 0 (tileMapPath 42 0)

/-- World in which every origin fetch fails. -/
def failWorld : World :=
  { s3Configured := false, s3Store := [], origin := fun _ => none }

/-- Cache state for the sliding-TTL witness: one resident tile whose timer
was started at time 0 with the default TTL. -/
def c8State : SState :=
  { tileMap := [(tileMapPath 42 0, c2Tile)], downloading := [],
    timeouts := [(tileMapPath 42 0, 3600000)], ttl := 3600 }

/-- Three read hits, each earlier than the deadline current at that
moment (the gaps are all shorter than the 3600-second TTL). -/
def c8Trace : List CEvent :=
  [.getHit 1000000 (tileMapPath 42 0),
   .getHit 2000000 (tileMapPath 42 0),
   .getHit 4500000 (tileMapPath 42 0)]

/-- World whose origin serves bytes that are not gzip-framed, so decoding
them throws — used to exercise the per-point catch. -/
def corruptWorld : World :=
  { s3Configured := false, s3Store := [], origin := fun _ => some [7] }

/-! Helper lemmas about the association-list operations. -/

theorem strAppendAssoc : ∀ a b c : String, a ++ b ++ c = a ++ (b ++ c)
  | ⟨a⟩, ⟨b⟩, ⟨c⟩ => congrArg String.mk (List.append_assoc a b c)

theorem lookupKey_removeKey_self (k : String) :
    ∀ l : List (String × α), lookupKey k (removeKey k l) = none := by
  intro l
  induction l with
  | nil => rfl
  | cons kv rest ih =>
      obtain ⟨k', v⟩ := kv
      by_cases h : k' = k
      · simp [removeKey, h, ih]
      · simp [removeKey, lookupKey, h, ih]

theorem lookupKey_removeKey_ne (k q : String) (h : q ≠ k) :
    ∀ l : List (String × α), lookupKey k (removeKey q l) = lookupKey k l := by
  intro l
  induction l with
  | nil => rfl
  | cons kv rest ih =>
      obtain ⟨k', v⟩ := kv
      by_cases hq : k' = q
      · subst hq
        simp [removeKey, lookupKey, h, ih]
      · simp [removeKey, lookupKey, hq, ih]

theorem lookupKey_upd_self (k : String) (v : α) (l : List (String × α)) :
    lookupKey k (upd k v l) = some v := by
  simp [upd, lookupKey]

theorem lookupKey_upd_ne (k q : String) (v : α) (h : q ≠ k) (l : List (String × α)) :
    lookupKey k (upd q v l) = lookupKey k l := by
  simp [upd, lookupKey, h, lookupKey_removeKey_ne k q h l]

theorem removeKey_eq_of_not_mem (k : String) :
    ∀ l : List (String × α), k ∉ l.map Prod.fst → removeKey k l = l := by
  intro l
  induction l with
  | nil => intro _; rfl
  | cons kv rest ih =>
      obtain ⟨k', v⟩ := kv
      intro h
      simp only [List.map, List.mem_cons, not_or] at h
      have hk : k' ≠ k := fun hkk => h.1 hkk.symm
      simp [removeKey, hk, ih h.2]

theorem length_removeKey (k : String) :
    ∀ (l : List (String × α)) (v : α), lookupKey k l = some v →
      (l.map Prod.fst).Nodup → (removeKey k l).length + 1 = l.length := by
  intro l
  induction l with
  | nil => intro v h _; exact absurd h (by simp [lookupKey])
  | cons kv rest ih =>
      obtain ⟨k', v'⟩ := kv
      intro v h hnd
      simp only [List.map, List.nodup_cons] at hnd
      obtain ⟨hk', hrest⟩ := hnd
      by_cases hkk : k' = k
      · subst hkk
        rw [removeKey, if_pos rfl, removeKey_eq_of_not_mem k' rest hk']
        simp
      · rw [lookupKey, if_neg hkk] at h
        rw [removeKey, if_neg hkk]
        simpa using ih v h hrest

theorem length_gzipBytes (bs : Bytes) : (gzipBytes bs).length = bs.length + 2 := by
  simp [gzipBytes]

theorem length_c3Tile : c3Tile.length = SIZE * SIZE * 2 := List.length_replicate _ _

/-! The claims. -/

/-- C2 (code bug): the origin can produce the tile for band (42, 0), and a
lone caller's resolution returns it; but while a resolution for the key is
already in flight (`downloading[path]` set by the first caller before its
fetch suspended), a duplicate `fetchTileBufferAsync` call returns a
premature miss (`ok none`) instead of awaiting the in-flight resolution and
reusing its result — `addToTileMap` returns immediately when the flag is
set (line 158) and the caller then reads the still-empty memory tier
(line 151). -/
theorem single_flight_premature_miss :
    (fetchTileBufferAsync c2World (mkService none) 0 42 0).2.2 = .ok (some c2Tile) ∧
    gunzipSync ((c2World.origin (tileMapPath 42 0)).getD []) = .ok c2Tile ∧
    (fetchTileBufferAsync c2World
        (addToTileMapSyncPrefix (mkService none) (tileMapPath 42 0)) 0 42 0).2.2 = .ok none :=
  ⟨rfl, rfl, rfl⟩

/-- C3 (code bug): resolving a tile that is present in the durable tier via
`addToTileMap` (lines 162-172) stores the fetched blob into the memory tier
without decompressing it — the stored buffer still carries the gzip framing
and does not have the `SIZE*SIZE*2` bytes of a decoded grid, violating the
memory-tier invariant (the sibling path, lines 136-147, gunzips first). -/
theorem memory_tier_stores_compressed_blob :
    lookupKey (tileMapPath 42 0)
        (addToTileMap c3World (mkService none) 0 (tileMapPath 42 0)).2.1.tileMap
      = some (gzipBytes c3Tile) ∧
    ∀ bs, lookupKey (tileMapPath 42 0)
        (addToTileMap c3World (mkService none) 0 (tileMapPath 42 0)).2.1.tileMap
      = some bs → bs.length ≠ SIZE * SIZE * 2 := by
  have hstore : lookupKey (tileMapPath 42 0)
      (addToTileMap c3World (mkService none) 0 (tileMapPath 42 0)).2.1.tileMap
    = some (gzipBytes c3Tile) := rfl
  refine ⟨hstore, ?_⟩
  intro bs h
  have hbs : gzipBytes c3Tile = bs := Option.some.inj (hstore.symm.trans h)
  subst hbs
  rw [length_gzipBytes, length_c3Tile]
  omega

/-- C4 (code bug): after the first resolution of band (42, 0) the
write-through put stored the origin's compressed blob in the durable tier,
and the origin-decoded tile sits in the memory tier.  The S3-read path of
`fetchTileBufferAsync` (lines 136-147) gunzips and reproduces that exact
tile, but the S3-read path of `addToTileMap` (lines 162-172) places the
still-compressed blob in the memory tier — so "get through any of the
code's S3-read paths yields the identical tile" fails. -/
theorem durable_roundtrip_asymmetric :
    lookupKey (tileMapPath 42 0) c4Resolved.1.s3Store = some (gzipBytes c4Data) ∧
    lookupKey (tileMapPath 42 0) c4Resolved.2.1.tileMap = some c4Data ∧
    (fetchTileBufferAsync c4Resolved.1 (mkService none) 0 42 0).2.2 = .ok (some c4Data) ∧
    lookupKey (tileMapPath 42 0)
        (addToTileMap c4Resolved.1 (mkService none) 0 (tileMapPath 42 0)).2.1.tileMap
      = some (gzipBytes c4Data) ∧
    gzipBytes c4Data ≠ c4Data :=
  ⟨rfl, rfl, rfl, rfl, by decide⟩

/-- C6: the code's `calculateElevation` coincides (over exact arithmetic)
with the specification's reference bilinear interpolation — scaling by
`unit = SIZE - 1`, the four corner samples at `(floor(row), floor(col))`,
`(floor(row), floor(col)+1)`, `(floor(row)+1, floor(col)+1)`,
`(floor(row)+1, floor(col))`, a `lerp` column blend per row, then the row
blend — at every point of every tile, in particular at every point strictly
inside the tile of band `(floor(lat), floor(lon))`. -/
theorem calculateElevation_eq_specBilinear :
    ∀ (tile : Bytes) (lat lon : ℚ),
      calculateElevation tile lat lon = specBilinear tile lat lon :=
  fun _ _ _ => rfl

/-- C9 (code bug): in `main.ts`'s `addToTileMap` a failed origin fetch
returns before the line that resets `downloading[path]` (lines 98-99), so
the key stays marked in flight forever and every retry is a no-op (the tile
map stays empty); the class version in `ElevationService.ts` deletes the
flag before the failure check (line 191), leaving no entry behind on the
same failing input. -/
theorem inflight_registry_leak_on_failure :
    lookupKey (tileMapPath 42 0)
        (mainAddToTileMap failWorld [] [] (tileMapPath 42 0)).1 = some true ∧
    (mainAddToTileMap failWorld
        (mainAddToTileMap failWorld [] [] (tileMapPath 42 0)).1 []
        (tileMapPath 42 0)).2.1 = [] ∧
    (addToTileMap failWorld (mkService none) 0 (tileMapPath 42 0)).2.1.downloading = [] :=
  ⟨rfl, rfl, rfl⟩

set_option maxRecDepth 2000 in
theorem pad2_bridge : ∀ n, n < 91 → padStart (Nat.repr n) 2 '0' = specPad2 n := by
  decide

set_option maxRecDepth 4000 in
theorem pad3_bridge : ∀ n, n < 181 → padStart (Nat.repr n) 3 '0' = specPad3 n := by
  decide

/-- C5: for every band pair in range, the code's `tileMapPath` is exactly
the specified deterministic encoding `"<latDir>/<latDir><lonDir>.hgt.gz"`
with `S`/`N` selected by the sign of the latitude band, `W`/`E` by the sign
of the longitude band, and the absolute bands zero-padded to 2 resp. 3
digits; including the spec's two concrete examples. -/
theorem tileMapPath_matches_spec (blat blon : Int)
    (h1 : -90 ≤ blat) (h2 : blat ≤ 90) (h3 : -180 ≤ blon) (h4 : blon ≤ 180) :
    tileMapPath blat blon = specEncode blat blon ∧
    tileMapPath 42 0 = "N42/N42E000.hgt.gz" ∧
    tileMapPath (-5) (-100) = "S05/S05W100.hgt.gz" := by
  refine ⟨?_, by decide, by decide⟩
  have ha : blat.natAbs < 91 := by omega
  have hb : blon.natAbs < 181 := by omega
  have e2 := pad2_bridge blat.natAbs ha
  have e3 := pad3_bridge blon.natAbs hb
  simp only [tileMapPath, specEncode, specLatDir, specLonDir, e2, e3, strAppendAssoc]

/-- Witness for C5 at the band pair (42, 0). -/
theorem tileMapPath_matches_spec_witness :
    tileMapPath 42 0 = specEncode 42 0 :=
  (tileMapPath_matches_spec 42 0 (by decide) (by decide) (by decide) (by decide)).1

/-- C7: for a buffer of exactly `SIZE*SIZE*2` bytes and any in-range
`row, col`, the south-up offset `((SIZE - row - 1) * SIZE + col) * 2` is
nonnegative and `offset + 2 ≤ SIZE*SIZE*2`, so `rowCol`'s big-endian read
succeeds — the out-of-range error branch is unreachable. -/
theorem rowCol_offset_in_bounds (buffer : Bytes) (row col : Int)
    (hbuf : buffer.length = SIZE * SIZE * 2)
    (hr0 : 0 ≤ row) (hr : row < (SIZE : Int)) (hc0 : 0 ≤ col) (hc : col < (SIZE : Int)) :
    0 ≤ (((SIZE : Int) - row - 1) * (SIZE : Int) + col) * 2 ∧
    (((SIZE : Int) - row - 1) * (SIZE : Int) + col) * 2 + 2
      ≤ (SIZE : Int) * (SIZE : Int) * 2 ∧
    ∃ v, rowCol buffer row col = .ok v := by
  have hS : (SIZE : Int) = 3601 := by norm_num [SIZE]
  rw [hS] at hr hc ⊢
  refine ⟨by omega, by omega, ?_⟩
  rw [rowCol, readInt16BE]
  rw [if_pos]
  · exact ⟨_, rfl⟩
  · constructor
    · show (0 : Int) ≤ _
      rw [hS]
      omega
    · rw [hbuf]
      show _ + 2 ≤ SIZE * SIZE * 2
      rw [hS]
      have : SIZE * SIZE * 2 = 25934402 := by norm_num [SIZE]
      rw [this]
      omega

/-- Witness for C7 on a full-size zero buffer at (row, col) = (1, 1). -/
theorem rowCol_offset_in_bounds_witness :
    ∃ v, rowCol (List.replicate (SIZE * SIZE * 2) 0) 1 1 = .ok v :=
  (rowCol_offset_in_bounds (List.replicate (SIZE * SIZE * 2) 0) 1 1
    (List.length_replicate _ _) (by decide) (by decide) (by decide) (by decide)).2.2

/-- C10: the reserved "unavailable" sentinel is `Number.NEGATIVE_INFINITY`:
an unresolved miss in the async path and a non-resident tile in the sync
path both yield exactly the sentinel, and a point whose processing throws
gets exactly the sentinel at its index in both batch loops. -/
theorem negInf_sentinel_placement :
    (∀ (w : World) (s : SState) (now : Nat) (lat lon : ℚ),
      (fetchTileBufferAsync w s now (Rat.floor lat) (Rat.floor lon)).2.2 = .ok none →
      (getElevationAsync w s now lat lon).2.2 = .ok JSNum.negInf) ∧
    (∀ (s : SState) (now : Nat) (lat lon : ℚ),
      (fetchTileBufferSync s now (Rat.floor lat) (Rat.floor lon)).2 = none →
      (getElevationSync s now lat lon).2 = .ok JSNum.negInf) ∧
    (∀ (w : World) (s : SState) (now : Nat) (p : LocationData)
       (rest : List LocationData) (w' : World) (s' : SState) (e : JsErr),
      getElevationAsync w s now p.lat p.lon = (w', s', .error e) →
      ((fetchElevationsAsync w s now (p :: rest)).2.2).get? 0 = some JSNum.negInf) ∧
    (∀ (s : SState) (now : Nat) (p : LocationData)
       (rest : List LocationData) (s' : SState) (e : JsErr),
      getElevationSync s now p.lat p.lon = (s', .error e) →
      ((fetchElevationsSync s now (p :: rest)).2).get? 0 = some JSNum.negInf) := by
  refine ⟨?_, ?_, ?_, ?_⟩
  · intro w s now lat lon h
    rcases hf : fetchTileBufferAsync w s now (Rat.floor lat) (Rat.floor lon)
      with ⟨w', s', r⟩
    rw [hf] at h
    simp only at h
    subst h
    simp [getElevationAsync, hf]
  · intro s now lat lon h
    rcases hf : fetchTileBufferSync s now (Rat.floor lat) (Rat.floor lon) with ⟨s', r⟩
    rw [hf] at h
    simp only at h
    subst h
    simp [getElevationSync, hf]
  · intro w s now p rest w' s' e h
    simp [fetchElevationsAsync, h]
  · intro s now p rest s' e h
    simp [fetchElevationsSync, h]

/-- Witness for C10: a sync read at a fresh service is a non-resident miss
and the public value is exactly the sentinel. -/
theorem negInf_sentinel_placement_witness :
    (getElevationSync (mkService none) 0 42 0).2 = .ok JSNum.negInf :=
  negInf_sentinel_placement.2.1 (mkService none) 0 42 0 rfl

theorem fetchElevationsAsync_len (now : Nat) :
    ∀ (data : List LocationData) (w : World) (s : SState),
      (fetchElevationsAsync w s now data).2.2.length = data.length := by
  intro data
  induction data with
  | nil => intro w s; rfl
  | cons p rest ih =>
      intro w s
      rcases h : getElevationAsync w s now p.lat p.lon with ⟨w', s', r⟩
      cases r with
      | ok v => simp [fetchElevationsAsync, h, ih]
      | error e => simp [fetchElevationsAsync, h, ih]

theorem fetchElevationsAsync_get (now : Nat) :
    ∀ (data : List LocationData) (w : World) (s : SState) (i : Nat) (p : LocationData),
      data.get? i = some p →
      (fetchElevationsAsync w s now data).2.2.get? i =
        some (pointOutcome (batchStateAt now w s (data.take i)).1
                           (batchStateAt now w s (data.take i)).2 now p) := by
  intro data
  induction data with
  | nil => intro w s i p h; simp at h
  | cons q rest ih =>
      intro w s i p hp
      rcases h : getElevationAsync w s now q.lat q.lon with ⟨w', s', r⟩
      cases i with
      | zero =>
          have hq : q = p := by simpa using hp
          subst hq
          cases r with
          | ok v => simp [fetchElevationsAsync, h, pointOutcome, batchStateAt]
          | error e => simp [fetchElevationsAsync, h, pointOutcome, batchStateAt]
      | succ i =>
          have hp' : rest.get? i = some p := by simpa using hp
          have hbatch : batchStateAt now w s ((q :: rest).take (i + 1)) =
              batchStateAt now w' s' (rest.take i) := by
            simp [batchStateAt, h]
          rw [hbatch]
          cases r with
          | ok v =>
              simpa [fetchElevationsAsync, h] using ih w' s' i p hp'
          | error e =>
              simpa [fetchElevationsAsync, h] using ih w' s' i p hp'

/-- C1: the async batch is total, same-length, same-order, and isolated:
the result list has one value per input point; the `i`-th result is the
`i`-th point's outcome — its elevation, or the sentinel when its processing
throws — evaluated in the state the first `i` points left behind, so a
failing point contributes its sentinel and every remaining point is still
processed in order. -/
theorem fetchElevationsAsync_total_ordered_isolated
    (w : World) (s : SState) (now : Nat) (data : List LocationData) :
    (fetchElevationsAsync w s now data).2.2.length = data.length ∧
    (∀ (i : Nat) (p : LocationData), data.get? i = some p →
      (fetchElevationsAsync w s now data).2.2.get? i =
        some (pointOutcome (batchStateAt now w s (data.take i)).1
                           (batchStateAt now w s (data.take i)).2 now p)) :=
  ⟨fetchElevationsAsync_len now data w s,
   fun i p h => fetchElevationsAsync_get now data w s i p h⟩

/-- Witness for C1: a two-point batch against a corrupt origin — the first
point's decode throws; its index holds the sentinel outcome and the second
point is still processed. -/
theorem fetchElevationsAsync_total_ordered_isolated_witness :
    (fetchElevationsAsync corruptWorld (mkService none) 0
        [⟨85/2, 1/2⟩, ⟨10, 20⟩]).2.2.length = 2 ∧
    (fetchElevationsAsync corruptWorld (mkService none) 0
        [⟨85/2, 1/2⟩, ⟨10, 20⟩]).2.2.get? 1 =
      some (pointOutcome
        (batchStateAt 0 corruptWorld (mkService none)
          ([⟨85/2, 1/2⟩, ⟨10, 20⟩].take 1)).1
        (batchStateAt 0 corruptWorld (mkService none)
          ([⟨85/2, 1/2⟩, ⟨10, 20⟩].take 1)).2 0 ⟨10, 20⟩) :=
  ⟨(fetchElevationsAsync_total_ordered_isolated corruptWorld (mkService none) 0
      [⟨85/2, 1/2⟩, ⟨10, 20⟩]).1,
   (fetchElevationsAsync_total_ordered_isolated corruptWorld (mkService none) 0
      [⟨85/2, 1/2⟩, ⟨10, 20⟩]).2 1 ⟨10, 20⟩ rfl⟩

theorem trace_survival (p : String) :
    ∀ (es : List CEvent) (s s' : SState),
      lookupKey p s.tileMap ≠ none → safeTrace p s es = true →
      runTrace s es = some s' → lookupKey p s'.tileMap ≠ none := by
  intro es
  induction es with
  | nil =>
      intro s s' hres _ hrun
      have : s = s' := by simpa [runTrace] using hrun
      exact this ▸ hres
  | cons e es ih =>
      intro s s' hres hsafe hrun
      simp only [safeTrace, Bool.and_eq_true] at hsafe
      obtain ⟨hdl, hrest⟩ := hsafe
      obtain ⟨d, hd, ht⟩ : ∃ d, lookupKey p s.timeouts = some d ∧ e.time < d := by
        cases hld : lookupKey p s.timeouts with
        | none => rw [hld] at hdl; simp at hdl
        | some d =>
            rw [hld] at hdl
            exact ⟨d, rfl, by simpa using hdl⟩
      simp only [runTrace] at hrun
      cases hstep : cstep s e with
      | none => rw [hstep] at hrun; simp at hrun
      | some s1 =>
          rw [hstep] at hrun hrest
          have hres1 : lookupKey p s1.tileMap ≠ none := by
            cases e with
            | getHit t q =>
                simp only [cstep] at hstep
                cases hq : lookupKey q s.tileMap with
                | none => rw [hq] at hstep; simp at hstep
                | some b =>
                    rw [hq] at hstep
                    have h1 : setTileTimeout t q s = s1 := by simpa using hstep
                    rw [← h1]
                    exact hres
            | put t q b =>
                simp only [cstep, Option.some.injEq] at hstep
                rw [← hstep]
                by_cases hpq : q = p
                · subst hpq
                  simp [setTileTimeout, lookupKey_upd_self]
                · simpa [setTileTimeout, lookupKey_upd_ne p q b hpq] using hres
            | fire t q =>
                simp only [cstep] at hstep
                cases hq : lookupKey q s.timeouts with
                | none => rw [hq] at hstep; simp at hstep
                | some dq =>
                    rw [hq] at hstep
                    by_cases hqt : dq ≤ t
                    · have h1 : (⟨removeKey q s.tileMap, s.downloading,
                          removeKey q s.timeouts, s.ttl⟩ : SState) = s1 := by
                        simpa [hqt] using hstep
                      by_cases hpq : q = p
                      · subst hpq
                        rw [hd] at hq
                        have hddq := Option.some.inj hq
                        subst hddq
                        exact absurd hqt (by simpa [CEvent.time] using Nat.not_le_of_lt ht)
                      · rw [← h1]
                        simpa [lookupKey_removeKey_ne p q hpq] using hres
                    · simp [hqt] at hstep
          exact ih s1 s' hres1 hrest hrun

/-- C8: the TTL is fixed at construction (default 3600 s) and applies
uniformly: every `setTileTimeout` — invoked by every read hit and every
store — replaces the key's pending deadline with a full fresh countdown
`now + ttl*1000`; a cache-hit read returns the state with exactly that
refresh applied; an entry touched at intervals shorter than its current
countdown survives any valid event trace; and a timer that is allowed to
fire (deadline reached, no later access) removes the entry, after which it
is gone and the resident tile count has decremented by one. -/
theorem ttl_sliding_expiration :
    ((mkService none).ttl = 3600) ∧
    (∀ t : Nat, 0 < t → (mkService (some t)).ttl = t) ∧
    (∀ (s : SState) (now : Nat) (p : String),
      lookupKey p (setTileTimeout now p s).timeouts = some (now + s.ttl * 1000)) ∧
    (∀ (w : World) (s : SState) (now : Nat) (lat lon : Int) (b : Bytes),
      lookupKey (tileMapPath lat lon) s.tileMap = some b →
      fetchTileBufferAsync w s now lat lon =
        (w, setTileTimeout now (tileMapPath lat lon) s, .ok (some b))) ∧
    (∀ (p : String) (es : List CEvent) (s s' : SState),
      lookupKey p s.tileMap ≠ none → safeTrace p s es = true →
      runTrace s es = some s' → lookupKey p s'.tileMap ≠ none) ∧
    (∀ (s : SState) (p : String) (d t : Nat) (v : Bytes),
      lookupKey p s.timeouts = some d → d ≤ t →
      lookupKey p s.tileMap = some v → (s.tileMap.map Prod.fst).Nodup →
      ∃ s', cstep s (.fire t p) = some s' ∧ lookupKey p s'.tileMap = none ∧
        s'.tileMap.length + 1 = s.tileMap.length) := by
  refine ⟨rfl, ?_, ?_, ?_, trace_survival, ?_⟩
  · intro t ht
    cases t with
    | zero => exact absurd ht (by simp)
    | succ n => rfl
  · intro s now p
    exact lookupKey_upd_self p (now + s.ttl * 1000) s.timeouts
  · intro w s now lat lon b h
    simp [fetchTileBufferAsync, h]
  · intro s p d t v hd hdt hres hnd
    refine ⟨{ s with tileMap := removeKey p s.tileMap,
                     timeouts := removeKey p s.timeouts }, ?_, ?_, ?_⟩
    · simp [cstep, hd, hdt]
    · exact lookupKey_removeKey_self p s.tileMap
    · exact length_removeKey p s.tileMap v hres hnd

/-- Witness for C8: a resident tile read three times at gaps shorter than
the default TTL survives the whole trace. -/
theorem ttl_sliding_expiration_witness :
    lookupKey (tileMapPath 42 0)
      ((runTrace c8State c8Trace).getD c8State).tileMap ≠ none :=
  ttl_sliding_expiration.2.2.2.2.1 (tileMapPath 42 0) c8Trace c8State
    ((runTrace c8State c8Trace).getD c8State) (by decide) (by decide) rfl

end GndElev
